import Mathlib

/-!
Shallow embedding of the server bootstrap subsystem of `shis` (src/shis/utils.py)
and proofs about it.

Conventions of the embedding:
* Python's `None`-able integers become `Option Nat`.
* The operating system's bind behaviour is a parameter `sys : Nat → Option String`:
  `sys p = none` means `server(address, handler)` succeeds when `address = ("", p)`,
  and `sys p = some s` means it raises an `OSError` whose `str()` is `s`.
  On Linux a bind on a busy port raises an `OSError` whose string form is
  `[Errno 98] Address already in use`, which is exactly the string the source
  compares against.
* `sys.exit()` (no argument) raises `SystemExit(None)`, which terminates the
  CPython process with exit status 0; it is modelled as the result
  `HttpdResult.exit 0 printed`, where `printed` is the text printed just before.
* A re-raised `OSError` is modelled as `HttpdResult.raised s` carrying the
  unchanged error string.
-/

namespace Shis

/-- Command line arguments consumed by the server bootstrap: `args.port`
(the `-p` flag, `None` when absent) and `args.thumb_dir` (the server root). -/
structure Args where
  port : Option Nat
  thumb_dir : String

/-- The `str()` of the `OSError` raised by a bind on an occupied port on Linux;
the source compares the caught error against this exact string (line 217). -/
def addrInUseMsg : String := "[Errno 98] Address already in use"

/-- The exact text printed by `start_httpd` before calling `sys.exit()`
(line 219): `f'OSError: {error}. Try a different port using the -p flag.'`
with `str(error)` equal to `addrInUseMsg` (guaranteed by the guard on
line 217). -/
def portExhaustedMsg : String :=
  "OSError: " ++ addrInUseMsg ++ ". Try a different port using the -p flag."

/-- Result of `start_httpd`: a server bound on a port, a `sys.exit()` after
printing a message (CPython exit status 0), or a re-raised `OSError`. -/
inductive HttpdResult where
  | server (port : Nat)
  | exit (code : Nat) (printed : String)
  | raised (err : String)
deriving DecidableEq

/-- Embedding of `start_httpd` (src/shis/utils.py lines 205-226).

```python
try:
    return server(address, handler)
except OSError as error:
    if str(error) == '[Errno 98] Address already in use':
        if args.port is not None or address[1] > 7500:
            print(f'OSError: {error}. Try a different port using the -p flag.')
            sys.exit()
        else:
            address = (address[0], address[1]+1)
            return start_httpd(server, address, handler, args)
    else:
        raise error
```
-/
def start_httpd (sys : Nat → Option String) (args : Args) (port : Nat) :
    HttpdResult :=
  match sys port with
  | none => .server port
  | some err =>
    if err = addrInUseMsg then
      if hg : args.port.isSome = true ∨ port > 7500 then
        .exit 0 ("OSError: " ++ err ++ ". Try a different port using the -p flag.")
      else
        start_httpd sys args (port + 1)
    else
      .raised err
termination_by 7501 - port
decreasing_by
  push_neg at hg
  omega

/-- The list of ports on which `start_httpd` attempts a bind, in order; it
follows exactly the recursion of `start_httpd`, recording `address[1]` at
each entry into the `try` block. -/
def bindAttempts (sys : Nat → Option String) (args : Args) (port : Nat) :
    List Nat :=
  port ::
    (match sys port with
    | none => []
    | some err =>
      if err = addrInUseMsg then
        if hg : args.port.isSome = true ∨ port > 7500 then []
        else bindAttempts sys args (port + 1)
      else [])
termination_by 7501 - port
decreasing_by
  push_neg at hg
  omega

/-- The first port candidate handed to `start_httpd`:
`server_address = ("", args.port or 7447)` (lines 247 and 280). Python's `or`
is truthiness-based, so `-p 0` also selects 7447. -/
def initialPort (args : Args) : Nat :=
  match args.port with
  | none => 7447
  | some p => if p = 0 then 7447 else p

/-- A bind environment in which every port is occupied. -/
def busyEverywhere : Nat → Option String := fun _ => some addrInUseMsg

/-- A bind environment in which only ports 7447 and 7448 are occupied. -/
def busyFirstTwo : Nat → Option String :=
  fun q => if q = 7447 ∨ q = 7448 then some addrInUseMsg else none

/-- The string form of an `OSError` that is not an address-in-use error. -/
def permErrorMsg : String := "[Errno 13] Permission denied"

/-- A bind environment in which every bind raises a permission error. -/
def permDeniedEverywhere : Nat → Option String := fun _ => some permErrorMsg

/-- Helper: with no pinned port, a run of busy ports starting at `p` (each
candidate staying at or below 7500) makes `start_httpd` walk to the first
free port. -/
theorem start_httpd_retry_run (sys : Nat → Option String) (args : Args)
    (hnone : args.port = none) (N : Nat) :
    ∀ p : Nat, p + N ≤ 7501 →
      (∀ k, k < N → sys (p + k) = some addrInUseMsg) →
      sys (p + N) = none →
      start_httpd sys args p = .server (p + N) := by
  induction N with
  | zero =>
    intro p _ _ hfree
    rw [start_httpd.eq_def]
    simp only [Nat.add_zero] at hfree
    simp [hfree]
  | succ n ih =>
    intro p hceil hbusy hfree
    have h0 : sys p = some addrInUseMsg := by
      have := hbusy 0 (Nat.succ_pos n)
      simpa using this
    have hcond : ¬(args.port.isSome = true ∨ p > 7500) := by
      simp only [hnone, Option.isSome_none, not_or]
      constructor
      · simp
      · omega
    rw [start_httpd.eq_def]
    simp only [h0, if_pos rfl, dif_neg hcond]
    have hrec := ih (p + 1) (by omega)
      (fun k hk => by
        have := hbusy (k + 1) (by omega)
        rwa [show p + (k + 1) = p + 1 + k by omega] at this)
      (by rw [show p + 1 + n = p + (n + 1) by omega]; exact hfree)
    rw [hrec, show p + 1 + n = p + (n + 1) by omega]
    simp

end Shis

namespace Shis

/-- C1 (amended): when the user pinned a port with `-p` and the bind fails
because the address is in use, `start_httpd` makes exactly one bind attempt
(zero retries) and terminates the process via `sys.exit()` — CPython exit
status 0, a normal exit — after printing a fixed diagnostic that names the
address-in-use error and suggests the `-p` flag, but does not interpolate the
port number into the message. -/
theorem start_httpd_pinned_exits (sys : Nat → Option String) (args : Args)
    (p : Nat) (hpin : args.port.isSome = true)
    (hbusy : sys p = some addrInUseMsg) :
    start_httpd sys args p = .exit 0 portExhaustedMsg ∧
      bindAttempts sys args p = [p] := by
  constructor
  · rw [start_httpd.eq_def, hbusy]
    simp [portExhaustedMsg, hpin]
  · rw [bindAttempts.eq_def, hbusy]
    simp [hpin]

/-- Witness for `start_httpd_pinned_exits` at port 8080 with every port busy. -/
theorem start_httpd_pinned_exits_witness :
    start_httpd busyEverywhere ⟨some 8080, "shis"⟩ 8080 =
        .exit 0 portExhaustedMsg ∧
      bindAttempts busyEverywhere ⟨some 8080, "shis"⟩ 8080 = [8080] :=
  start_httpd_pinned_exits busyEverywhere ⟨some 8080, "shis"⟩ 8080 rfl rfl

set_option maxRecDepth 4000 in
/-- C1 counterexample: with port 7447 pinned and busy, the process exit
modelled from `sys.exit()` has status 0 (not a non-zero/abnormal exit), and
the printed diagnostic does not contain the digits of the conflicting port
7447 anywhere, so it does not reference that exact port. -/
theorem start_httpd_pinned_cex :
    start_httpd busyEverywhere ⟨some 7447, "shis"⟩ 7447 =
        .exit 0 portExhaustedMsg ∧
      ¬ ("7447".toList <:+: portExhaustedMsg.toList) := by
  constructor
  · rw [start_httpd.eq_def]
    simp [busyEverywhere, portExhaustedMsg]
  · decide

/-- C2: with no `-p` flag the first candidate is 7447, and `N` consecutive
busy ports starting there (each busy candidate at or below the 7500 ceiling,
i.e. `N ≤ 54`) make `start_httpd` return a server bound on the `(N+1)`-th
port, `7447 + N`. -/
theorem start_httpd_auto_port (sys : Nat → Option String) (args : Args)
    (hnone : args.port = none) (N : Nat) (hN : N ≤ 54)
    (hbusy : ∀ k, k < N → sys (7447 + k) = some addrInUseMsg)
    (hfree : sys (7447 + N) = none) :
    initialPort args = 7447 ∧
      start_httpd sys args (initialPort args) = .server (7447 + N) := by
  have h1 : initialPort args = 7447 := by
    simp [initialPort, hnone]
  refine ⟨h1, ?_⟩
  rw [h1]
  exact start_httpd_retry_run sys args hnone N 7447 (by omega) hbusy hfree

/-- Witness for `start_httpd_auto_port`: ports 7447 and 7448 busy, 7449 free;
the server binds on 7449, the third candidate. -/
theorem start_httpd_auto_port_witness :
    initialPort ⟨none, "shis"⟩ = 7447 ∧
      start_httpd busyFirstTwo ⟨none, "shis"⟩ (initialPort ⟨none, "shis"⟩) =
        .server (7447 + 2) :=
  start_httpd_auto_port busyFirstTwo ⟨none, "shis"⟩ rfl 2 (by omega)
    (fun k hk => by interval_cases k <;> rfl) rfl

/-- C3: when the current candidate exceeds the 7500 ceiling and the bind
fails with address-in-use, `start_httpd` terminates the process instead of
retrying, whatever `args.port` is: exactly one bind attempt is made. -/
theorem start_httpd_ceiling_exits (sys : Nat → Option String) (args : Args)
    (p : Nat) (hp : 7500 < p) (hbusy : sys p = some addrInUseMsg) :
    start_httpd sys args p = .exit 0 portExhaustedMsg ∧
      bindAttempts sys args p = [p] := by
  constructor
  · rw [start_httpd.eq_def, hbusy]
    simp [portExhaustedMsg, hp]
  · rw [bindAttempts.eq_def, hbusy]
    simp [hp]

/-- Witness for `start_httpd_ceiling_exits` at candidate 7501 with no pinned
port. -/
theorem start_httpd_ceiling_exits_witness :
    start_httpd busyEverywhere ⟨none, "shis"⟩ 7501 =
        .exit 0 portExhaustedMsg ∧
      bindAttempts busyEverywhere ⟨none, "shis"⟩ 7501 = [7501] :=
  start_httpd_ceiling_exits busyEverywhere ⟨none, "shis"⟩ 7501 (by omega) rfl

/-- C5: a bind failure whose error string is not the address-in-use string is
re-raised unchanged by `start_httpd`, with no retry: one bind attempt, and
the propagated error is exactly the original one. -/
theorem start_httpd_other_oserror (sys : Nat → Option String) (args : Args)
    (p : Nat) (err : String) (h : sys p = some err)
    (hne : err ≠ addrInUseMsg) :
    start_httpd sys args p = .raised err ∧
      bindAttempts sys args p = [p] := by
  constructor
  · rw [start_httpd.eq_def, h]
    simp [hne]
  · rw [bindAttempts.eq_def, h]
    simp [hne]

/-- Witness for `start_httpd_other_oserror`: a permission error on port 80
propagates unchanged. -/
theorem start_httpd_other_oserror_witness :
    start_httpd permDeniedEverywhere ⟨none, "shis"⟩ 80 = .raised permErrorMsg ∧
      bindAttempts permDeniedEverywhere ⟨none, "shis"⟩ 80 = [80] :=
  start_httpd_other_oserror permDeniedEverywhere ⟨none, "shis"⟩ 80 permErrorMsg
    rfl (by decide)

end Shis

namespace Shis

/-- Outcome of one step of the probe — an `urlopen` call together with the
reads performed on its response object: a value; a raised
`urllib.error.URLError` (the only class the source catches); or a raised
exception of any other class, carrying its name. The last covers the
exceptions that escape `except urllib.error.URLError`: `socket.timeout`
raised by `getresponse`/`read` on a response timeout,
`http.client.RemoteDisconnected` when the peer closes without answering,
`UnicodeDecodeError` from `.decode('utf-8')` on a non-UTF-8 echo body, and
`http.client.InvalidURL` from the confirmation `urlopen` on a malformed
URL built from the service-controlled body — none of these classes derives
from `URLError`. -/
inductive Resp (α : Type) where
  | ok (val : α)
  | urlError
  | raised (exc : String)
deriving DecidableEq

/-- The confirmation URL built on line 195:
`shis_server_url = f'http://{public_host}:{port}/'`. -/
def confirmUrl (public_host : String) (port : Nat) : String :=
  "http://" ++ public_host ++ ":" ++ toString port ++ "/"

/-- Embedding of `get_public_ip` (src/shis/utils.py lines 186-202).
`echo` is the outcome of `urlopen('https://api.ipify.org', timeout=5)`
together with the `read()` and `.decode('utf-8')` of its body; `confirm`
maps a URL to the outcome of `urlopen(url, timeout=5)` followed by
`getcode()`. A `URLError` at either step is caught; an exception of any
other class escapes the `except` clause and propagates to the caller,
modelled as `Except.error` with the exception's name.

```python
try:
    with urllib.request.urlopen('https://api.ipify.org', timeout=5) as r:
        public_host = r.read().decode('utf-8')
        shis_server_url = f'http://{public_host}:{port}/'
    with urllib.request.urlopen(shis_server_url, timeout=5) as r:
        status = r.getcode()
    if status == 200:
        host = public_host
except urllib.error.URLError:
    pass
return host, port
```
-/
def get_public_ip (host : String) (port : Nat)
    (echo : Resp String) (confirm : String → Resp Nat) :
    Except String (String × Nat) :=
  match echo with
  | .urlError => .ok (host, port)
  | .raised exc => .error exc
  | .ok public_host =>
    match confirm (confirmUrl public_host port) with
    | .urlError => .ok (host, port)
    | .raised exc => .error exc
    | .ok status =>
      if status = 200 then .ok (public_host, port) else .ok (host, port)

/-- C4 counterexample: `get_public_ip` can raise to its caller. A
`socket.timeout` raised while reading the IP-echo response is not a
`URLError`, so it escapes the `except urllib.error.URLError` clause and
propagates instead of producing the fallback `(host, port)`; likewise an
`http.client.InvalidURL` raised by the confirmation `urlopen` on a
malformed service-controlled URL propagates. -/
theorem get_public_ip_raises_cex :
    get_public_ip "192.168.1.5" 7447 (.raised "socket.timeout")
        (fun _ => .ok 200) = .error "socket.timeout" ∧
      get_public_ip "192.168.1.5" 7447 (.ok "not a host")
          (fun _ => .raised "http.client.InvalidURL") =
        .error "http.client.InvalidURL" :=
  ⟨rfl, rfl⟩

/-- C4 (amended): when neither step raises outside `URLError`,
`get_public_ip` returns rather than raises, and then its port component
equals the input port; it returns `(public_host, port)` exactly when the
echo succeeds and the confirmation of `http://public_host:port/` returns
status 200; a `URLError` at either step or a non-200 confirmation yields
the original `(host, port)` unchanged; but an exception of any other class
at either step propagates unchanged to the caller. -/
theorem get_public_ip_spec (host : String) (port : Nat)
    (echo : Resp String) (confirm : String → Resp Nat) :
    (∀ r, get_public_ip host port echo confirm = .ok r → r.2 = port) ∧
    (∀ ph, echo = .ok ph → confirm (confirmUrl ph port) = .ok 200 →
      get_public_ip host port echo confirm = .ok (ph, port)) ∧
    ((echo = .urlError ∨
      ∃ ph, echo = .ok ph ∧
        (confirm (confirmUrl ph port) = .urlError ∨
         ∃ s, confirm (confirmUrl ph port) = .ok s ∧ s ≠ 200)) →
      get_public_ip host port echo confirm = .ok (host, port)) ∧
    (∀ exc, echo = .raised exc →
      get_public_ip host port echo confirm = .error exc) ∧
    (∀ ph exc, echo = .ok ph → confirm (confirmUrl ph port) = .raised exc →
      get_public_ip host port echo confirm = .error exc) := by
  refine ⟨?_, ?_, ?_, ?_, ?_⟩
  · intro r hr
    cases echo with
    | urlError =>
      simp [get_public_ip] at hr
      simp [← hr]
    | raised exc => simp [get_public_ip] at hr
    | ok ph =>
      cases hc : confirm (confirmUrl ph port) with
      | urlError =>
        simp [get_public_ip, hc] at hr
        simp [← hr]
      | raised exc => simp [get_public_ip, hc] at hr
      | ok s =>
        by_cases hs : s = 200 <;> simp [get_public_ip, hc, hs] at hr <;>
          simp [← hr]
  · intro ph he hc
    subst he
    simp [get_public_ip, hc]
  · rintro (he | ⟨ph, he, hc | ⟨s, hc, hs⟩⟩)
    · subst he; rfl
    · subst he; simp [get_public_ip, hc]
    · subst he; simp [get_public_ip, hc, hs]
  · intro exc he
    subst he
    rfl
  · intro ph exc he hc
    subst he
    simp [get_public_ip, hc]

/-- Witness for `get_public_ip_spec`: a confirmed probe reports the echoed
public host with the port preserved, a `URLError` on the echo falls back to
the local host, and a non-`URLError` exception on the confirmation
propagates. -/
theorem get_public_ip_spec_witness :
    get_public_ip "192.168.1.5" 7447 (.ok "203.0.113.9") (fun _ => .ok 200) =
        .ok ("203.0.113.9", 7447) ∧
      get_public_ip "192.168.1.5" 7447 .urlError (fun _ => .ok 200) =
        .ok ("192.168.1.5", 7447) ∧
      get_public_ip "192.168.1.5" 7447 (.ok "203.0.113.9")
          (fun _ => .raised "http.client.RemoteDisconnected") =
        .error "http.client.RemoteDisconnected" :=
  ⟨(get_public_ip_spec "192.168.1.5" 7447 (.ok "203.0.113.9")
      (fun _ => .ok 200)).2.1 "203.0.113.9" rfl rfl,
   (get_public_ip_spec "192.168.1.5" 7447 .urlError
      (fun _ => .ok 200)).2.2.1 (Or.inl rfl),
   (get_public_ip_spec "192.168.1.5" 7447 (.ok "203.0.113.9")
      (fun _ => .raised "http.client.RemoteDisconnected")).2.2.2.2
     "203.0.113.9" "http.client.RemoteDisconnected" rfl rfl⟩

end Shis

namespace Shis

/-!
Paths are modelled at the granularity of their `/`-separated components: an
absolute filesystem path is the list of its components from the root. The
request path stays a `String` (the percent-decoded request target in origin
form, which always begins with `/`); `unquote` and the trailing-slash marker
of the stdlib routine affect neither which file is resolved nor confinement
and are not modelled.
-/

/-- Accumulator pass of `posixpath.normpath` restricted to absolute paths,
on already-split components: drops empty and `.` components, resolves `..`
against the accumulator, and drops `..` at the root (for an absolute path
`new_comps` never retains a `..`, so the pop branch always applies). -/
def normpathAbsAux : List String → List String → List String
  | acc, [] => acc.reverse
  | acc, comp :: rest =>
    if comp = "" ∨ comp = "." then normpathAbsAux acc rest
    else if comp = ".." then
      match acc with
      | [] => normpathAbsAux [] rest
      | _ :: t => normpathAbsAux t rest
    else normpathAbsAux (comp :: acc) rest

/-- `posixpath.normpath` on the components of an absolute path. -/
def normpathAbs (comps : List String) : List String := normpathAbsAux [] comps

/-- Query/fragment stripping of the stdlib routine:
`path.split('?',1)[0]` then `path.split('#',1)[0]`. -/
def stripQueryFragment (path : String) : String :=
  (((path.splitOn "?").headD "").splitOn "#").headD ""

/-- The skip test of the word loop in the stdlib routine:
`os.path.dirname(word)` is truthy exactly when the word contains a `/`, and
`os.curdir, os.pardir` are `.` and `..`. -/
def skipWord (w : String) : Bool :=
  w.toList.contains '/' || w == "." || w == ".."

/-- Embedding of `SimpleHTTPRequestHandler.translate_path` from CPython's
`http.server` (the superclass call on line 148), at component granularity;
`directory` is the base the stdlib starts from (`os.getcwd()` on 3.6,
`self.directory` on 3.7+).

```python
path = path.split('?',1)[0]
path = path.split('#',1)[0]
path = posixpath.normpath(urllib.parse.unquote(path))
words = path.split('/')
words = filter(None, words)
path = self.directory
for word in words:
    if os.path.dirname(word) or word in (os.curdir, os.pardir):
        continue
    path = os.path.join(path, word)
return path
```
-/
def translate_path_base (directory : List String) (reqPath : String) :
    List String :=
  let path := stripQueryFragment reqPath
  let words := (normpathAbs (path.splitOn "/")).filter (fun w => w != "")
  words.foldl (fun acc w => if skipWord w then acc else acc ++ [w]) directory

/-- The simple components the stdlib routine appends below its base for a
given request path. -/
def requestWords (reqPath : String) : List String :=
  ((normpathAbs ((stripQueryFragment reqPath).splitOn "/")).filter
      (fun w => w != "")).filter (fun w => !skipWord w)

/-- `posixpath.relpath` at component granularity: drop the common leading
components, then one `..` for each remaining component of `start`, then the
remaining components of `path`. -/
def relpathAux : List String → List String → List String
  | path, [] => path
  | [], start => start.map (fun _ => "..")
  | a :: path, b :: start =>
    if a = b then relpathAux path start
    else (b :: start).map (fun _ => "..") ++ a :: path

/-- `posixpath.relpath`, returning `.` when the two paths coincide. -/
def relpath (path start : List String) : List String :=
  match relpathAux path start with
  | [] => ["."]
  | r => r

/-- Embedding of `CustomHTTPHandler.translate_path`
(src/shis/utils.py lines 146-152) in the Python 3.6/3.7 deployment, where the
server object carries a `directory` attribute (so `hasattr` succeeds) and the
stdlib base resolves against the process working directory `cwd`.

```python
path = SimpleHTTPRequestHandler.translate_path(self, path)
if hasattr(self.server, 'directory'):
    relpath = os.path.relpath(path, os.getcwd())
    path = os.path.join(self.server.directory, relpath)
return path
```
-/
def translate_path (directory cwd : List String) (reqPath : String) :
    List String :=
  directory ++ relpath (translate_path_base cwd reqPath) cwd

/-- Embedding of `CustomHTTPHandler.translate_path` in the Python 3.8+
deployment: the handler is constructed with `directory=args.thumb_dir`, so
the stdlib base already resolves against the root, and the server object has
no `directory` attribute (`hasattr` fails), so the base result is returned
unchanged. -/
def translate_path_38 (directory : List String) (reqPath : String) :
    List String :=
  translate_path_base directory reqPath

theorem foldl_skipWord_eq (ws acc : List String) :
    ws.foldl (fun a w => if skipWord w then a else a ++ [w]) acc
      = acc ++ ws.filter (fun w => !skipWord w) := by
  induction ws generalizing acc with
  | nil => simp
  | cons w ws ih =>
    cases h : skipWord w <;>
      simp [List.foldl_cons, List.filter_cons, h, ih, List.append_assoc]

theorem translate_path_base_eq (directory : List String) (reqPath : String) :
    translate_path_base directory reqPath = directory ++ requestWords reqPath := by
  unfold translate_path_base requestWords
  exact foldl_skipWord_eq _ _

theorem skipWord_false (w : String) (h : skipWord w = false) :
    '/' ∉ w.toList ∧ w ≠ "." ∧ w ≠ ".." := by
  simp [skipWord] at h
  exact ⟨h.1.1, h.1.2, h.2⟩

theorem requestWords_simple (reqPath : String) :
    ∀ w ∈ requestWords reqPath, skipWord w = false := by
  intro w hw
  unfold requestWords at hw
  have := List.of_mem_filter hw
  simpa using this

theorem relpathAux_append (start ws : List String) :
    relpathAux (start ++ ws) start = ws := by
  induction start with
  | nil => cases ws <;> rfl
  | cons a t ih => simpa [relpathAux] using ih

/-- C6: in both deployments, `CustomHTTPHandler.translate_path` resolves the
request path to the configured root directory followed only by simple
components — never `..` and never a component containing `/` — so the result
never leaves the root; and the result of the 3.6/3.7 variant is the same
whatever the process working directory is, so resolution does not depend on
the current working directory. -/
theorem translate_path_confined (directory cwd cwd2 : List String)
    (reqPath : String) :
    (∃ ws, translate_path directory cwd reqPath = directory ++ ws ∧
        ∀ w ∈ ws, w ≠ ".." ∧ '/' ∉ w.toList) ∧
    translate_path directory cwd reqPath =
      translate_path directory cwd2 reqPath ∧
    (∃ ws, translate_path_38 directory reqPath = directory ++ ws ∧
        ∀ w ∈ ws, w ≠ ".." ∧ '/' ∉ w.toList) := by
  have hmem : ∀ w ∈ requestWords reqPath, w ≠ ".." ∧ '/' ∉ w.toList := by
    intro w hw
    have h := skipWord_false w (requestWords_simple reqPath w hw)
    exact ⟨h.2.2, h.1⟩
  have hrel : ∀ c : List String,
      translate_path directory c reqPath =
        directory ++ relpath (c ++ requestWords reqPath) c := by
    intro c
    unfold translate_path
    rw [translate_path_base_eq]
  have hval : ∀ c : List String,
      relpath (c ++ requestWords reqPath) c = ["."] ∨
        relpath (c ++ requestWords reqPath) c = requestWords reqPath := by
    intro c
    unfold relpath
    rw [relpathAux_append]
    cases requestWords reqPath with
    | nil => left; rfl
    | cons a t => right; rfl
  have hcommon : ∀ c : List String,
      relpath (c ++ requestWords reqPath) c =
        relpath ([] ++ requestWords reqPath) [] := by
    intro c
    unfold relpath
    rw [relpathAux_append, relpathAux_append]
  refine ⟨?_, ?_, ?_⟩
  · rcases hval cwd with h | h
    · refine ⟨["."], by rw [hrel cwd, h], ?_⟩
      intro w hw
      simp only [List.mem_singleton] at hw
      subst hw
      exact ⟨by decide, by decide⟩
    · exact ⟨requestWords reqPath, by rw [hrel cwd, h], hmem⟩
  · rw [hrel cwd, hrel cwd2, hcommon cwd, hcommon cwd2]
  · refine ⟨requestWords reqPath, ?_, hmem⟩
    unfold translate_path_38
    exact translate_path_base_eq directory reqPath

end Shis

namespace Shis

/-- Behaviour of one call to `handle_one_request` on an accepted connection:
it completes a request leaving `self.close_connection` at the given value, or
it raises `ConnectionResetError`, `BrokenPipeError`, or some other exception. -/
inductive ConnEvent where
  | request (closeAfter : Bool)
  | resetErr
  | brokenPipeErr
  | otherErr (msg : String)
deriving DecidableEq

set_option linter.unusedVariables false in
/-- Embedding of `CustomHTTPHandler.log_message`
(src/shis/utils.py lines 154-156): the body is `pass`, so the list of log
lines written for any format string and arguments is empty. -/
def log_message (format : String) (args : List String) : List String := []

/-- Embedding of `CustomHTTPHandler.handle` (src/shis/utils.py lines
158-166), driven by the trace of successive `handle_one_request` behaviours
on one connection. Returns `Except.ok n` when `handle` returns normally
after completing `n` requests, and `Except.error msg` when an exception
escapes to the caller.

```python
self.close_connection = True
try:
    self.handle_one_request()
    while not self.close_connection:
        self.handle_one_request()
except (ConnectionResetError, BrokenPipeError):
    pass
```
An exhausted trace models a `handle_one_request` that leaves
`close_connection` set (e.g. end of stream), completing no further request.
-/
def handle : List ConnEvent → Except String Nat
  | [] => .ok 0
  | .request c :: rest =>
    if c then .ok 1
    else
      match handle rest with
      | .ok n => .ok (n + 1)
      | .error e => .error e
  | .resetErr :: _ => .ok 0
  | .brokenPipeErr :: _ => .ok 0
  | .otherErr e :: _ => .error e

/-- C7: on one connection, `handle` keeps processing requests while the
client keeps the connection alive and stops at the first request that closes
it (later traffic untouched); a connection reset or broken pipe after `k`
kept-alive requests ends the connection normally with nothing propagated to
the caller; and no per-request access log line is ever emitted. -/
theorem handle_connection_spec (k : Nat) (e : ConnEvent)
    (rest tail : List ConnEvent) (format : String) (args : List String)
    (he : e = .resetErr ∨ e = .brokenPipeErr) :
    handle (List.replicate k (.request false) ++ .request true :: tail) =
        .ok (k + 1) ∧
    handle (List.replicate k (.request false) ++ e :: rest) = .ok k ∧
    log_message format args = [] := by
  refine ⟨?_, ?_, rfl⟩
  · induction k with
    | zero => simp [handle]
    | succ n ih => simp [List.replicate_succ, handle, ih]
  · induction k with
    | zero => rcases he with h | h <;> subst h <;> simp [handle]
    | succ n ih => simp [List.replicate_succ, handle, ih]

/-- Witness for `handle_connection_spec`: two kept-alive requests then a
reset end the connection normally with two requests served. -/
theorem handle_connection_spec_witness :
    handle (List.replicate 2 (.request false) ++
        ConnEvent.request true :: []) = .ok (2 + 1) ∧
    handle (List.replicate 2 (.request false) ++
        ConnEvent.resetErr :: []) = .ok 2 ∧
    log_message "%s - - [%s] %s" ["GET / HTTP/1.1", "200", "-"] = [] :=
  handle_connection_spec 2 .resetErr [] [] "%s - - [%s] %s"
    ["GET / HTTP/1.1", "200", "-"] (Or.inl rfl)

end Shis

namespace Shis

/-- The observable side effects of `start_server`, in program order. -/
inductive Effect where
  | makedirs (dir : String)
  | writeFile (path content : String)
  | bindAttempt (port : Nat)
deriving DecidableEq

/-- The exact document written to `<thumb_dir>/index.html` by `start_server`
(lines 177-179): a meta refresh that redirects to the `html/` sub-path. -/
def redirHtml : String :=
  "<html><head><meta http-equiv=\"Refresh\" content=\"0; URL=html/\"></head></html>"

/-- Embedding of `start_server` (src/shis/utils.py lines 169-183) as its
trace of side effects. Both version branches (`start_server_36` for minor
6/7, `start_server_38` for minor ≥ 8) call `start_httpd` on
`("", args.port or 7447)`, so their bind attempts are those of
`bindAttempts`; on an interpreter older than 3.6 neither branch is taken and
no bind is attempted.

```python
os.makedirs(args.thumb_dir, exist_ok=True)
redir_html = os.path.join(args.thumb_dir, 'index.html')
with open(redir_html, 'w') as f:
    f.write(...)
if sys.version_info.minor in [6, 7]:
    return start_server_36(args)
if sys.version_info.minor >= 8:
    return start_server_38(args)
```
-/
def start_server (pyMinor : Nat) (sys : Nat → Option String) (args : Args) :
    List Effect :=
  Effect.makedirs args.thumb_dir ::
    Effect.writeFile (args.thumb_dir ++ "/index.html") redirHtml ::
      (if pyMinor = 6 ∨ pyMinor = 7 ∨ pyMinor ≥ 8 then
        (bindAttempts sys args (initialPort args)).map Effect.bindAttempt
      else [])

/-- A file system state: the set of existing directories and the files with
their contents. -/
structure FS where
  dirs : List String
  files : List (String × String)

/-- Interpretation of one effect on a file system state: `os.makedirs` with
`exist_ok=True` creates the directory when missing, `open(path, 'w')` plus
`write` replaces the file's content, and a bind attempt touches no file. -/
def applyEffect (fs : FS) : Effect → FS
  | .makedirs d => ⟨if d ∈ fs.dirs then fs.dirs else d :: fs.dirs, fs.files⟩
  | .writeFile p c => ⟨fs.dirs, (p, c) :: fs.files.filter (fun q => q.1 ≠ p)⟩
  | .bindAttempt _ => fs

/-- Run a trace of effects on an initial file system state. -/
def runEffects (fs : FS) (es : List Effect) : FS := es.foldl applyEffect fs

theorem runEffects_bindAttempts (fs : FS) (es : List Effect)
    (h : ∀ e ∈ es, ∃ p, e = Effect.bindAttempt p) : runEffects fs es = fs := by
  induction es generalizing fs with
  | nil => rfl
  | cons e t ih =>
    obtain ⟨p, hp⟩ := h e (List.mem_cons_self e t)
    subst hp
    exact ih fs (fun x hx => h x (List.mem_cons_of_mem _ hx))

set_option maxRecDepth 4000 in
/-- C8: for any root directory that does not yet exist, `start_server`
first creates it, then writes `index.html` inside it with the redirect
document pointing at the `html/` sub-path, and only after both does any
bind attempt occur; afterwards the directory exists and the file holds the
redirect document. -/
theorem start_server_setup_before_bind (pyMinor : Nat)
    (sys : Nat → Option String) (args : Args) (fs : FS)
    (hnew : args.thumb_dir ∉ fs.dirs) :
    (∃ rest, start_server pyMinor sys args =
        Effect.makedirs args.thumb_dir ::
          Effect.writeFile (args.thumb_dir ++ "/index.html") redirHtml :: rest ∧
        ∀ e ∈ rest, ∃ p, e = Effect.bindAttempt p) ∧
    args.thumb_dir ∈ (runEffects fs (start_server pyMinor sys args)).dirs ∧
    (args.thumb_dir ++ "/index.html", redirHtml) ∈
      (runEffects fs (start_server pyMinor sys args)).files ∧
    "URL=html/".toList <:+: redirHtml.toList := by
  have hrest : ∀ e ∈ (if pyMinor = 6 ∨ pyMinor = 7 ∨ pyMinor ≥ 8 then
      (bindAttempts sys args (initialPort args)).map Effect.bindAttempt
      else []), ∃ p, e = Effect.bindAttempt p := by
    split
    · intro e he
      obtain ⟨p, _, hp⟩ := List.mem_map.mp he
      exact ⟨p, hp.symm⟩
    · intro e he
      exact absurd he (List.not_mem_nil e)
  have hrun : runEffects fs (start_server pyMinor sys args) =
      applyEffect (applyEffect fs (.makedirs args.thumb_dir))
        (.writeFile (args.thumb_dir ++ "/index.html") redirHtml) := by
    unfold start_server runEffects
    rw [List.foldl_cons, List.foldl_cons]
    exact runEffects_bindAttempts _ _ hrest
  refine ⟨⟨_, rfl, hrest⟩, ?_, ?_, ?_⟩
  · rw [hrun]
    simp [applyEffect, hnew]
  · rw [hrun]
    simp [applyEffect]
  · decide

/-- Witness for `start_server_setup_before_bind`: a fresh root `gallery` on
an empty file system, Python 3.8, all ports free. -/
theorem start_server_setup_before_bind_witness :
    (∃ rest, start_server 8 (fun _ => none) ⟨none, "gallery"⟩ =
        Effect.makedirs "gallery" ::
          Effect.writeFile ("gallery" ++ "/index.html") redirHtml :: rest ∧
        ∀ e ∈ rest, ∃ p, e = Effect.bindAttempt p) ∧
    "gallery" ∈
      (runEffects ⟨[], []⟩ (start_server 8 (fun _ => none) ⟨none, "gallery"⟩)).dirs ∧
    ("gallery" ++ "/index.html", redirHtml) ∈
      (runEffects ⟨[], []⟩ (start_server 8 (fun _ => none) ⟨none, "gallery"⟩)).files ∧
    "URL=html/".toList <:+: redirHtml.toList :=
  start_server_setup_before_bind 8 (fun _ => none) ⟨none, "gallery"⟩ ⟨[], []⟩
    (List.not_mem_nil "gallery")

end Shis

namespace Shis

/-- The names bound at module level in `src/shis/utils.py`: its imports
(lines 1-10) and its module-level definitions. Notably the `socket` module
is never imported (line 4 imports `urllib.request`, line 6 imports two names
from `http.server`, line 7 imports `Thread`). -/
def utilsModuleGlobals : List String :=
  ["os", "sys", "argparse", "urllib", "partial", "HTTPServer",
   "SimpleHTTPRequestHandler", "Thread", "Generator", "List", "Tuple",
   "tqdm", "chunks", "rreplace", "urlify", "filter_image", "find_thumb",
   "scale_dims", "fixed_width_formatter", "CustomHTTPHandler",
   "start_server", "get_public_ip", "start_httpd", "start_server_36",
   "start_server_38"]

/-- The local names of `start_server_38` (lines 261-290) visible to the
nested method `DualStackServer.server_bind` through its closure, plus the
method's own parameter. -/
def serverBindEnclosingScope : List String :=
  ["contextlib", "_get_best_family", "ThreadingHTTPServer", "DualStackServer",
   "handler_class", "server_class", "server_address", "httpd", "host", "port",
   "args", "self"]

/-- The names of CPython 3.8's `builtins` module, the final scope of Python
name resolution. -/
def pythonBuiltins : List String :=
  ["abs", "all", "any", "ascii", "bin", "bool", "breakpoint", "bytearray",
   "bytes", "callable", "chr", "classmethod", "compile", "complex",
   "copyright", "credits", "delattr", "dict", "dir", "divmod", "enumerate",
   "eval", "exec", "exit", "filter", "float", "format", "frozenset",
   "getattr", "globals", "hasattr", "hash", "help", "hex", "id", "input",
   "int", "isinstance", "issubclass", "iter", "len", "license", "list",
   "locals", "map", "max", "memoryview", "min", "next", "object", "oct",
   "open", "ord", "pow", "print", "property", "quit", "range", "repr",
   "reversed", "round", "set", "setattr", "slice", "sorted", "staticmethod",
   "str", "sum", "super", "tuple", "type", "vars", "zip",
   "ArithmeticError", "AssertionError", "AttributeError", "BaseException",
   "BlockingIOError", "BrokenPipeError", "BufferError", "BytesWarning",
   "ChildProcessError", "ConnectionAbortedError", "ConnectionError",
   "ConnectionRefusedError", "ConnectionResetError", "DeprecationWarning",
   "EOFError", "Ellipsis", "EnvironmentError", "Exception", "False",
   "FileExistsError", "FileNotFoundError", "FloatingPointError",
   "FutureWarning", "GeneratorExit", "IOError", "ImportError",
   "ImportWarning", "IndentationError", "IndexError", "InterruptedError",
   "IsADirectoryError", "KeyError", "KeyboardInterrupt", "LookupError",
   "MemoryError", "ModuleNotFoundError", "NameError", "None",
   "NotADirectoryError", "NotImplemented", "NotImplementedError", "OSError",
   "OverflowError", "PendingDeprecationWarning", "PermissionError",
   "ProcessLookupError", "RecursionError", "ReferenceError",
   "ResourceWarning", "RuntimeError", "RuntimeWarning",
   "StopAsyncIteration", "StopIteration", "SyntaxError", "SyntaxWarning",
   "SystemError", "SystemExit", "TabError", "TimeoutError", "True",
   "TypeError", "UnboundLocalError", "UnicodeDecodeError",
   "UnicodeEncodeError", "UnicodeError", "UnicodeTranslateError",
   "UnicodeWarning", "UserWarning", "ValueError", "Warning",
   "ZeroDivisionError", "__build_class__", "__builtins__", "__debug__",
   "__doc__", "__import__", "__loader__", "__name__", "__package__",
   "__spec__"]

/-- Python name resolution as seen from the body of
`DualStackServer.server_bind`: enclosing function scope, then module
globals, then builtins. -/
def resolvesInServerBind (name : String) : Bool :=
  serverBindEnclosingScope.contains name || utilsModuleGlobals.contains name ||
    pythonBuiltins.contains name

/-- One observable step of `DualStackServer.server_bind`. -/
inductive BindStep where
  | setsockoptIPv6Only (value : Nat)
  | nameErrorRaised (name : String)
  | exceptionSuppressed
  | superServerBind
deriving DecidableEq

/-- Embedding of `DualStackServer.server_bind` (src/shis/utils.py lines
270-275). Evaluating the `setsockopt` call first resolves the name `socket`;
if that fails, a `NameError` is raised before `setsockopt` runs, and
`contextlib.suppress(Exception)` swallows it (`NameError` derives from
`Exception`); either way `super().server_bind()` then runs.

```python
def server_bind(self):
    # suppress exception when protocol is IPv4
    with contextlib.suppress(Exception):
        self.socket.setsockopt(
            socket.IPPROTO_IPV6, socket.IPV6_V6ONLY, 0)
    return super().server_bind()
```
-/
def server_bind : List BindStep :=
  (if resolvesInServerBind "socket" then
    [BindStep.setsockoptIPv6Only 0]
  else
    [BindStep.nameErrorRaised "socket", BindStep.exceptionSuppressed]) ++
    [BindStep.superServerBind]

/-- C9: the name `socket` resolves in no scope visible to
`DualStackServer.server_bind`, so the `setsockopt` call always raises a
`NameError`, the `contextlib.suppress(Exception)` block suppresses it, the
base class bind still runs as the final step, and no `setsockopt` on
`IPV6_V6ONLY` is ever executed. -/
theorem server_bind_never_sets_v6only :
    resolvesInServerBind "socket" = false ∧
    server_bind = [BindStep.nameErrorRaised "socket",
      BindStep.exceptionSuppressed, BindStep.superServerBind] ∧
    (∀ v : Nat, BindStep.setsockoptIPv6Only v ∉ server_bind) ∧
    server_bind.getLast? = some BindStep.superServerBind := by
  have h : resolvesInServerBind "socket" = false := by decide
  refine ⟨h, ?_, ?_, ?_⟩
  · rw [server_bind, h]
    rfl
  · intro v
    rw [server_bind, h]
    simp
  · rw [server_bind, h]
    rfl

end Shis
